import Mathlib

/-!
Verification of the derived-state engine of the blog-dashboard repository.

The definitions below are a shallow embedding of the TypeScript source:
the record model of src/ui/components/AssetRow.tsx (schema section), the
health classifier deriveHealth, the section-completeness calculator
deriveSectionCompleteness, the severity ranker healthRank, the filter/sort
pipeline of the BlogList page, the snapshot builder buildSnapshot, the CSV
serializer snapshotToCSV, and the evidence appender addEvidence.
TypeScript string-literal unions become inductive types; string renderings
of enum values are given by explicit str functions; the JavaScript
number-to-string conversion used by the CSV serializer is embedded as
natToStr; the impure timestamp of addEvidence becomes an explicit argument.
-/

-- ============================================================================
-- Record model (schema section of AssetRow.tsx)
-- ============================================================================

/-- Lifecycle status of a blog: active, paused or archived. -/
inductive BlogStatus
  | active
  | paused
  | archived
deriving DecidableEq

/-- Category of an asset: internal, external or distribution. -/
inductive AssetCategory
  | internal
  | external
  | distribution
deriving DecidableEq

/-- Importance tier of an asset: critical, important or optional. -/
inductive AssetImportance
  | critical
  | important
  | optional
deriving DecidableEq

/-- Status of an asset; skipped is a first-class deliberate status. -/
inductive AssetStatus
  | not_created
  | created
  | connected
  | verified
  | error
  | skipped
deriving DecidableEq

/-- Closed enumeration of asset types. -/
inductive AssetType
  | github_repo
  | lovable_project
  | production_site
  | google_search_console
  | google_analytics
  | facebook_page
  | instagram_account
  | x_account
  | og_metadata
  | share_image
  | rss_feed
deriving DecidableEq

/-- Type tag of an evidence entry. -/
inductive EvidenceType
  | manual_note
  | api_check
  | screenshot
  | link
deriving DecidableEq

/-- String value of a BlogStatus, as in the TypeScript string-literal union. -/
def BlogStatus.str : BlogStatus → String
  | .active => "active"
  | .paused => "paused"
  | .archived => "archived"

/-- String value of an AssetType, as in the TypeScript string-literal union. -/
def AssetType.str : AssetType → String
  | .github_repo => "github_repo"
  | .lovable_project => "lovable_project"
  | .production_site => "production_site"
  | .google_search_console => "google_search_console"
  | .google_analytics => "google_analytics"
  | .facebook_page => "facebook_page"
  | .instagram_account => "instagram_account"
  | .x_account => "x_account"
  | .og_metadata => "og_metadata"
  | .share_image => "share_image"
  | .rss_feed => "rss_feed"

/-- Evidence entry: a typed provenance record with value and timestamp. -/
structure AssetEvidence where
  type : EvidenceType
  value : String
  recordedAt : String
deriving DecidableEq

/-- Asset record of the schema. -/
structure Asset where
  assetId : String
  type : AssetType
  category : AssetCategory
  importance : AssetImportance
  status : AssetStatus
  label : String
  url : Option String
  externalId : Option String
  lastCheckedAt : Option String
  notes : Option String
  evidence : List AssetEvidence
deriving DecidableEq

/-- Blog record of the schema. -/
structure Blog where
  id : String
  displayName : String
  domain : String
  status : BlogStatus
  notes : Option String
  assets : List Asset
deriving DecidableEq

-- ============================================================================
-- Health classifier (deriveHealth)
-- ============================================================================

/-- Health level of a blog: healthy, incomplete or risk. -/
inductive HealthLevel
  | healthy
  | incomplete
  | risk
deriving DecidableEq

/-- String value of a HealthLevel, as in the TypeScript string-literal union. -/
def HealthLevel.str : HealthLevel → String
  | .healthy => "healthy"
  | .incomplete => "incomplete"
  | .risk => "risk"

/-- Missing-asset counts per importance tier. -/
structure MissingCounts where
  critical : Nat
  important : Nat
  optional : Nat
deriving DecidableEq

/-- Derived health of a blog: level, missing counts and reason strings. -/
structure BlogHealth where
  level : HealthLevel
  missing : MissingCounts
  reasons : List String
deriving DecidableEq

/-- Bad statuses of the health classifier, the set not_created, error. -/
def BAD_STATUSES : List AssetStatus := [AssetStatus.not_created, AssetStatus.error]

/-- Initial accumulator of deriveHealth. -/
def healthInit : BlogHealth :=
  { level := HealthLevel.healthy
    missing := { critical := 0, important := 0, optional := 0 }
    reasons := [] }

/-- Increment of the missing count selected by an importance tier. -/
def bumpMissing (m : MissingCounts) : AssetImportance → MissingCounts
  | .critical => { m with critical := m.critical + 1 }
  | .important => { m with important := m.important + 1 }
  | .optional => { m with optional := m.optional + 1 }

/-- Loop body of deriveHealth: one asset is classified into the accumulator. -/
def healthStep (r : BlogHealth) (asset : Asset) : BlogHealth :=
  if BAD_STATUSES.contains asset.status then
    let rBumped := { r with missing := bumpMissing r.missing asset.importance }
    if asset.importance = AssetImportance.critical then
      { rBumped with
          reasons := rBumped.reasons ++
            ["Critical asset missing or broken: " ++ AssetType.str asset.type] }
    else rBumped
  else r

/-- Health classifier: pure derivation of BlogHealth from one Blog. -/
def deriveHealth (blog : Blog) : BlogHealth :=
  let r := blog.assets.foldl healthStep healthInit
  { r with
      level :=
        if r.missing.critical > 0 then HealthLevel.risk
        else if r.missing.important > 0 then HealthLevel.incomplete
        else HealthLevel.healthy }

-- ============================================================================
-- Section completeness calculator (deriveSectionCompleteness)
-- ============================================================================

/-- Verified and total counts of one category of assets. -/
structure SectionCompleteness where
  total : Nat
  verified : Nat
deriving DecidableEq

/-- Section completeness: total of the category, verified or connected count. -/
def deriveSectionCompleteness (assets : List Asset) (category : AssetCategory) :
    SectionCompleteness :=
  let sectionAssets := assets.filter (fun a => decide (a.category = category))
  let verified := (sectionAssets.filter (fun a =>
    decide (a.status = AssetStatus.verified ∨ a.status = AssetStatus.connected))).length
  { total := sectionAssets.length, verified := verified }

-- ============================================================================
-- Severity ranker (healthRank)
-- ============================================================================

/-- Numeric rank of a health level for sorting; lower ranks appear first. -/
def healthRank : HealthLevel → Nat
  | .risk => 0
  | .incomplete => 1
  | .healthy => 2

-- ============================================================================
-- Filter/sort pipeline (BlogList page)
-- ============================================================================

/-- Status filter of the BlogList page: all, or one lifecycle status. -/
inductive StatusFilter
  | all
  | only (s : BlogStatus)
deriving DecidableEq

/-- Health filter of the BlogList page: all, or one health level. -/
inductive HealthFilter
  | all
  | only (l : HealthLevel)
deriving DecidableEq

/-- Substring containment, embedding of the JavaScript String includes test. -/
def strIncludes (s sub : String) : Bool := decide (sub.data <:+: s.data)

/-- Status gate of the BlogList filter: pass when the filter is all or the
lifecycle status equals the selected one. -/
def statusPass (statusFilter : StatusFilter) (st : BlogStatus) : Bool :=
  match statusFilter with
  | StatusFilter.all => true
  | StatusFilter.only s => decide (st = s)

/-- Health gate of the BlogList filter: pass when the filter is all or the
derived level equals the selected one. -/
def healthPass (healthFilter : HealthFilter) (lv : HealthLevel) : Bool :=
  match healthFilter with
  | HealthFilter.all => true
  | HealthFilter.only l => decide (lv = l)

/-- Filter predicate of the BlogList page over one blog-health pair. -/
def blogFilterPred (statusFilter : StatusFilter) (healthFilter : HealthFilter)
    (domainQuery : String) (x : Blog × BlogHealth) : Bool :=
  statusPass statusFilter x.1.status &&
  healthPass healthFilter x.2.level &&
  (decide (domainQuery = "") || strIncludes x.1.domain.toLower domainQuery.toLower)

/-- Comparator of the BlogList sort, as a boolean less-or-equal relation:
health severity rank first, then display-name comparison. -/
def blogCmpLE (a b : Blog × BlogHealth) : Bool :=
  if healthRank a.2.level = healthRank b.2.level then
    decide (a.1.displayName ≤ b.1.displayName)
  else decide (healthRank a.2.level < healthRank b.2.level)

/-- Filter/sort pipeline of the BlogList page: derive health per blog, apply
the three filters, sort by severity rank then display name (stable sort,
embedding the stable JavaScript Array sort). -/
def blogListView (blogs : List Blog) (statusFilter : StatusFilter)
    (healthFilter : HealthFilter) (domainQuery : String) :
    List (Blog × BlogHealth) :=
  ((blogs.map (fun blog => (blog, deriveHealth blog))).filter
    (blogFilterPred statusFilter healthFilter domainQuery)).mergeSort blogCmpLE

-- ============================================================================
-- Snapshot builder (buildSnapshot)
-- ============================================================================

/-- The three section-completeness pairs of a snapshot record. -/
structure SnapshotSections where
  internal : SectionCompleteness
  external : SectionCompleteness
  distribution : SectionCompleteness
deriving DecidableEq

/-- Flat, exportable snapshot record of one blog. -/
structure BlogSnapshot where
  id : String
  domain : String
  displayName : String
  status : String
  health : String
  missingCritical : Nat
  missingImportant : Nat
  sections : SnapshotSections
deriving DecidableEq

/-- Snapshot builder: one snapshot record per blog, in input order. -/
def buildSnapshot (blogs : List Blog) : List BlogSnapshot :=
  blogs.map (fun blog =>
    let health := deriveHealth blog
    { id := blog.id
      domain := blog.domain
      displayName := blog.displayName
      status := BlogStatus.str blog.status
      health := HealthLevel.str health.level
      missingCritical := health.missing.critical
      missingImportant := health.missing.important
      sections :=
        { internal := deriveSectionCompleteness blog.assets AssetCategory.internal
          external := deriveSectionCompleteness blog.assets AssetCategory.external
          distribution := deriveSectionCompleteness blog.assets AssetCategory.distribution } })

-- ============================================================================
-- Snapshot serializer (snapshotToCSV)
-- ============================================================================

/-- Decimal digit character of one digit value. -/
def digitToChar (d : Nat) : Char :=
  match d with
  | 0 => '0'
  | 1 => '1'
  | 2 => '2'
  | 3 => '3'
  | 4 => '4'
  | 5 => '5'
  | 6 => '6'
  | 7 => '7'
  | 8 => '8'
  | 9 => '9'
  | _ => '*'

/-- Fuel-bounded accumulation of the decimal digits of a number. -/
def natToStrAux : Nat → Nat → List Char → List Char
  | 0, _, acc => acc
  | fuel + 1, n, acc =>
    let d := digitToChar (n % 10)
    if n / 10 = 0 then d :: acc
    else natToStrAux fuel (n / 10) (d :: acc)

/-- Decimal rendering of a number, embedding the JavaScript number-to-string
conversion performed by the array join of the serializer. -/
def natToStr (n : Nat) : String := String.mk (natToStrAux (n + 1) n [])

/-- Join of a list of strings with a separator, embedding the JavaScript
Array join method. -/
def joinSep (sep : String) : List String → String
  | [] => ""
  | [x] => x
  | x :: xs => x ++ sep ++ joinSep sep xs

/-- Header column names of the CSV export. -/
def csvHeaders : List String :=
  ["Domain", "Name", "Status", "Health", "Critical Missing", "Important Missing",
   "Internal Verified", "External Verified"]

/-- Row cells of one snapshot record, in header column order. -/
def csvRow (s : BlogSnapshot) : List String :=
  [s.domain, s.displayName, s.status, s.health,
   natToStr s.missingCritical, natToStr s.missingImportant,
   natToStr s.sections.internal.verified ++ "/" ++ natToStr s.sections.internal.total,
   natToStr s.sections.external.verified ++ "/" ++ natToStr s.sections.external.total]

/-- Snapshot serializer: header line then one comma-joined line per record. -/
def snapshotToCSV (snapshots : List BlogSnapshot) : String :=
  joinSep "\n" (joinSep "," csvHeaders :: snapshots.map (fun s => joinSep "," (csvRow s)))

-- ============================================================================
-- Evidence appender (addEvidence)
-- ============================================================================

/-- Evidence appender: a new Asset with one appended evidence entry; the
impure timestamp of the source becomes the explicit argument now. -/
def addEvidence (asset : Asset) (t : EvidenceType) (value : String)
    (now : String) : Asset :=
  { asset with evidence := asset.evidence ++ [{ type := t, value := value, recordedAt := now }] }

-- ============================================================================
-- Derived notions used by the statements
-- ============================================================================

/-- Health level as a function of the critical and important missing counts
alone; used to state that the optional count never affects the level. -/
def levelFromCounts (crit imp : Nat) : HealthLevel :=
  if crit > 0 then HealthLevel.risk
  else if imp > 0 then HealthLevel.incomplete
  else HealthLevel.healthy

/-- Number of newline characters of a string. -/
def countNL (s : String) : Nat := s.data.count '\n'

/-- Text of a string up to its first newline. -/
def firstLine (s : String) : String :=
  String.mk (s.data.takeWhile (fun c => c != '\n'))

/-- Splitting of a character list at every occurrence of a delimiter. -/
def splitChar (c : Char) : List Char → List Char → List (List Char)
  | [], cur => [cur.reverse]
  | x :: xs, cur =>
    if x = c then cur.reverse :: splitChar c xs []
    else splitChar c xs (x :: cur)

/-- Fields of a delimited line: the pieces between delimiter occurrences. -/
def splitFields (c : Char) (s : String) : List (List Char) := splitChar c s.data []

/-- Full text of one CSV body line of a snapshot record, spelled out. -/
def csvLine (s : BlogSnapshot) : String :=
  s.domain ++ "," ++ s.displayName ++ "," ++ s.status ++ "," ++ s.health ++ "," ++
  natToStr s.missingCritical ++ "," ++ natToStr s.missingImportant ++ "," ++
  natToStr s.sections.internal.verified ++ "/" ++ natToStr s.sections.internal.total ++ "," ++
  natToStr s.sections.external.verified ++ "/" ++ natToStr s.sections.external.total

/-- Boolean test: the asset is counted as missing at the critical tier. -/
def missingAtCritical (a : Asset) : Bool :=
  decide ((a.status = AssetStatus.not_created ∨ a.status = AssetStatus.error) ∧
    a.importance = AssetImportance.critical)

/-- Boolean test: the asset is counted as missing at the important tier. -/
def missingAtImportant (a : Asset) : Bool :=
  decide ((a.status = AssetStatus.not_created ∨ a.status = AssetStatus.error) ∧
    a.importance = AssetImportance.important)

/-- Boolean test: the asset is counted as missing at the optional tier. -/
def missingAtOptional (a : Asset) : Bool :=
  decide ((a.status = AssetStatus.not_created ∨ a.status = AssetStatus.error) ∧
    a.importance = AssetImportance.optional)

/-- Reason string recorded for one missing critical asset. -/
def reasonOf (a : Asset) : String :=
  "Critical asset missing or broken: " ++ AssetType.str a.type

-- ============================================================================
-- Helper lemmas on the health classifier
-- ============================================================================

theorem contains_BAD_STATUSES (s : AssetStatus) :
    BAD_STATUSES.contains s
      = decide (s = AssetStatus.not_created ∨ s = AssetStatus.error) := by
  cases s <;> rfl

theorem healthStep_missing_critical (r : BlogHealth) (a : Asset) :
    (healthStep r a).missing.critical
      = r.missing.critical + (if missingAtCritical a then 1 else 0) := by
  rcases a with ⟨aid, ty, cat, imp, st, lab, u, e, lc, no, ev⟩
  cases st <;> cases imp <;>
    simp [healthStep, bumpMissing, missingAtCritical, BAD_STATUSES]

theorem healthStep_missing_important (r : BlogHealth) (a : Asset) :
    (healthStep r a).missing.important
      = r.missing.important + (if missingAtImportant a then 1 else 0) := by
  rcases a with ⟨aid, ty, cat, imp, st, lab, u, e, lc, no, ev⟩
  cases st <;> cases imp <;>
    simp [healthStep, bumpMissing, missingAtImportant, BAD_STATUSES]

theorem healthStep_missing_optional (r : BlogHealth) (a : Asset) :
    (healthStep r a).missing.optional
      = r.missing.optional + (if missingAtOptional a then 1 else 0) := by
  rcases a with ⟨aid, ty, cat, imp, st, lab, u, e, lc, no, ev⟩
  cases st <;> cases imp <;>
    simp [healthStep, bumpMissing, missingAtOptional, BAD_STATUSES]

theorem healthStep_reasons (r : BlogHealth) (a : Asset) :
    (healthStep r a).reasons
      = r.reasons ++ (if missingAtCritical a then [reasonOf a] else []) := by
  rcases a with ⟨aid, ty, cat, imp, st, lab, u, e, lc, no, ev⟩
  cases st <;> cases imp <;>
    simp [healthStep, bumpMissing, missingAtCritical, reasonOf, BAD_STATUSES]

theorem foldl_healthStep_spec (as : List Asset) (r : BlogHealth) :
    (as.foldl healthStep r).missing.critical
        = r.missing.critical + as.countP missingAtCritical
    ∧ (as.foldl healthStep r).missing.important
        = r.missing.important + as.countP missingAtImportant
    ∧ (as.foldl healthStep r).missing.optional
        = r.missing.optional + as.countP missingAtOptional
    ∧ (as.foldl healthStep r).reasons
        = r.reasons ++ (as.filter missingAtCritical).map reasonOf := by
  induction as generalizing r with
  | nil => simp
  | cons a as ih =>
    obtain ⟨ih1, ih2, ih3, ih4⟩ := ih (healthStep r a)
    refine ⟨?_, ?_, ?_, ?_⟩
    · rw [List.foldl_cons, ih1, healthStep_missing_critical, List.countP_cons]
      omega
    · rw [List.foldl_cons, ih2, healthStep_missing_important, List.countP_cons]
      omega
    · rw [List.foldl_cons, ih3, healthStep_missing_optional, List.countP_cons]
      omega
    · rw [List.foldl_cons, ih4, healthStep_reasons, List.filter_cons]
      by_cases h : missingAtCritical a = true <;> simp [h]

theorem deriveHealth_missing_eq (blog : Blog) :
    (deriveHealth blog).missing = (blog.assets.foldl healthStep healthInit).missing := rfl

theorem deriveHealth_level_eq (blog : Blog) :
    (deriveHealth blog).level
      = levelFromCounts (deriveHealth blog).missing.critical
          (deriveHealth blog).missing.important := rfl

theorem levelFromCounts_risk (c i : Nat) :
    levelFromCounts c i = HealthLevel.risk ↔ 0 < c := by
  unfold levelFromCounts
  split <;> rename_i h
  · simpa using h
  · split <;> simp <;> omega

theorem levelFromCounts_incomplete (c i : Nat) :
    levelFromCounts c i = HealthLevel.incomplete ↔ (c = 0 ∧ 0 < i) := by
  unfold levelFromCounts
  split <;> rename_i h
  · simp; omega
  · split <;> rename_i h2 <;> simp <;> omega

theorem levelFromCounts_healthy (c i : Nat) :
    levelFromCounts c i = HealthLevel.healthy ↔ (c = 0 ∧ i = 0) := by
  unfold levelFromCounts
  split <;> rename_i h
  · simp; omega
  · split <;> rename_i h2 <;> simp <;> omega

/-- Claim C1: the health level is risk exactly when the critical missing count
is positive; with no critical missing it is incomplete exactly when the
important missing count is positive and healthy otherwise; the level is a
function of the critical and important counts alone, so the optional count
never affects it. -/
theorem deriveHealth_level_spec (blog : Blog) :
    ((deriveHealth blog).level = HealthLevel.risk
        ↔ 0 < (deriveHealth blog).missing.critical)
    ∧ ((deriveHealth blog).level = HealthLevel.incomplete
        ↔ ((deriveHealth blog).missing.critical = 0
            ∧ 0 < (deriveHealth blog).missing.important))
    ∧ ((deriveHealth blog).level = HealthLevel.healthy
        ↔ ((deriveHealth blog).missing.critical = 0
            ∧ (deriveHealth blog).missing.important = 0))
    ∧ (deriveHealth blog).level
        = levelFromCounts (deriveHealth blog).missing.critical
            (deriveHealth blog).missing.important := by
  refine ⟨?_, ?_, ?_, deriveHealth_level_eq blog⟩ <;> rw [deriveHealth_level_eq blog]
  · exact levelFromCounts_risk _ _
  · exact levelFromCounts_incomplete _ _
  · exact levelFromCounts_healthy _ _

/-- Claim C2: for each importance tier the missing count equals the number of
assets of that tier whose status is not created or error; the reasons list has
exactly one entry, naming the type, per critical asset so counted; statuses
other than not created and error are never counted. -/
theorem deriveHealth_missing_spec (blog : Blog) :
    (deriveHealth blog).missing.critical = blog.assets.countP missingAtCritical
    ∧ (deriveHealth blog).missing.important = blog.assets.countP missingAtImportant
    ∧ (deriveHealth blog).missing.optional = blog.assets.countP missingAtOptional
    ∧ (deriveHealth blog).reasons
        = (blog.assets.filter missingAtCritical).map reasonOf
    ∧ (∀ a ∈ blog.assets,
        (a.status = AssetStatus.skipped ∨ a.status = AssetStatus.created
          ∨ a.status = AssetStatus.connected ∨ a.status = AssetStatus.verified) →
        missingAtCritical a = false ∧ missingAtImportant a = false
          ∧ missingAtOptional a = false) := by
  obtain ⟨h1, h2, h3, h4⟩ := foldl_healthStep_spec blog.assets healthInit
  refine ⟨?_, ?_, ?_, ?_, ?_⟩
  · rw [deriveHealth_missing_eq, h1]; simp [healthInit]
  · rw [deriveHealth_missing_eq, h2]; simp [healthInit]
  · rw [deriveHealth_missing_eq, h3]; simp [healthInit]
  · show (blog.assets.foldl healthStep healthInit).reasons = _
    rw [h4]; rfl
  · intro a _ hgood
    rcases hgood with h | h | h | h <;>
      simp [missingAtCritical, missingAtImportant, missingAtOptional, h]

/-- Claim C4: the section completeness total counts the assets of the given
category regardless of status, and the verified count counts those of them
whose status is verified or connected. -/
theorem deriveSectionCompleteness_spec (assets : List Asset) (category : AssetCategory) :
    (deriveSectionCompleteness assets category).total
        = assets.countP (fun a => decide (a.category = category))
    ∧ (deriveSectionCompleteness assets category).verified
        = assets.countP (fun a => decide (a.category = category
            ∧ (a.status = AssetStatus.verified ∨ a.status = AssetStatus.connected))) := by
  constructor
  · rw [List.countP_eq_length_filter]
    rfl
  · show ((assets.filter _).filter _).length = _
    rw [List.filter_filter, List.countP_eq_length_filter]
    congr 1
    apply List.filter_congr
    intro a _
    by_cases h1 : a.category = category <;>
      by_cases h2 : a.status = AssetStatus.verified ∨ a.status = AssetStatus.connected <;>
      simp [h1, h2]

/-- Claim C10: addEvidence returns an asset whose evidence list is the input
evidence list with exactly one new entry of the given type and value appended
at the end, and every other field is unchanged; the input value itself is
untouched, the operation being a pure constructor. -/
theorem addEvidence_spec (a : Asset) (t : EvidenceType) (v now : String) :
    (addEvidence a t v now).evidence
        = a.evidence ++ [{ type := t, value := v, recordedAt := now }]
    ∧ (addEvidence a t v now).assetId = a.assetId
    ∧ (addEvidence a t v now).type = a.type
    ∧ (addEvidence a t v now).category = a.category
    ∧ (addEvidence a t v now).importance = a.importance
    ∧ (addEvidence a t v now).status = a.status
    ∧ (addEvidence a t v now).label = a.label
    ∧ (addEvidence a t v now).url = a.url
    ∧ (addEvidence a t v now).externalId = a.externalId
    ∧ (addEvidence a t v now).lastCheckedAt = a.lastCheckedAt
    ∧ (addEvidence a t v now).notes = a.notes :=
  ⟨rfl, rfl, rfl, rfl, rfl, rfl, rfl, rfl, rfl, rfl, rfl⟩

-- ============================================================================
-- Neutrality of skipped assets (C3)
-- ============================================================================

theorem healthStep_skipped (r : BlogHealth) (a : Asset)
    (h : a.status = AssetStatus.skipped) : healthStep r a = r := by
  have hc : a.status ∉ BAD_STATUSES := by rw [h]; decide
  simp [healthStep, hc]

/-- Claim C3: an asset with status skipped contributes nothing to the health
classifier, whose whole result is unchanged by removing the asset, and in the
section completeness of its category it contributes one to the total and
nothing to the verified count. -/
theorem skipped_asset_neutral (bl : Blog) (pre post : List Asset) (a : Asset)
    (hassets : bl.assets = pre ++ a :: post)
    (hskip : a.status = AssetStatus.skipped) :
    deriveHealth bl = deriveHealth { bl with assets := pre ++ post }
    ∧ (deriveSectionCompleteness bl.assets a.category).total
        = (deriveSectionCompleteness (pre ++ post) a.category).total + 1
    ∧ (deriveSectionCompleteness bl.assets a.category).verified
        = (deriveSectionCompleteness (pre ++ post) a.category).verified := by
  have hf : bl.assets.foldl healthStep healthInit
      = (pre ++ post).foldl healthStep healthInit := by
    rw [hassets, List.foldl_append, List.foldl_cons, healthStep_skipped _ _ hskip,
      ← List.foldl_append]
  have hpa : (decide (a.category = a.category)) = true := by simp
  have hq : ¬(a.status = AssetStatus.verified ∨ a.status = AssetStatus.connected) := by
    simp [hskip]
  refine ⟨?_, ?_, ?_⟩
  · simp only [deriveHealth]
    rw [hf]
  · rw [hassets]
    simp [deriveSectionCompleteness, List.filter_append, List.filter_cons,
      hpa, List.length_append]
    omega
  · rw [hassets]
    simp [deriveSectionCompleteness, List.filter_append, List.filter_cons,
      hpa, hq, List.length_append]

/-- Sample asset with a bad status, used by the concrete witnesses. -/
def assetBadW : Asset :=
  { assetId := "a-repo", type := AssetType.github_repo,
    category := AssetCategory.internal, importance := AssetImportance.critical,
    status := AssetStatus.not_created, label := "Repo", url := none,
    externalId := none, lastCheckedAt := none, notes := none, evidence := [] }

/-- Sample skipped asset, used by the concrete witnesses. -/
def assetSkippedW : Asset :=
  { assetId := "a-rss", type := AssetType.rss_feed,
    category := AssetCategory.distribution, importance := AssetImportance.important,
    status := AssetStatus.skipped, label := "RSS", url := none,
    externalId := none, lastCheckedAt := none, notes := none, evidence := [] }

/-- Sample blog holding the two sample assets. -/
def blogW : Blog :=
  { id := "b1", displayName := "Alpha", domain := "alpha.com",
    status := BlogStatus.active, notes := none,
    assets := [assetBadW, assetSkippedW] }

theorem skipped_asset_neutral_witness :
    blogW.assets = [assetBadW] ++ assetSkippedW :: []
    ∧ assetSkippedW.status = AssetStatus.skipped
    ∧ deriveHealth blogW = deriveHealth { blogW with assets := [assetBadW] ++ [] } :=
  ⟨rfl, rfl, (skipped_asset_neutral blogW [assetBadW] [] assetSkippedW rfl rfl).1⟩

-- ============================================================================
-- Snapshot builder (C7)
-- ============================================================================

/-- Claim C7: the snapshot builder yields one record per blog in input order,
and the record at each position carries that blog's identifier, domain,
display name, lifecycle status, derived health level, critical and important
missing counts, and the three section-completeness pairs. -/
theorem buildSnapshot_spec (blogs : List Blog) (i : Nat) :
    (buildSnapshot blogs).length = blogs.length
    ∧ (buildSnapshot blogs)[i]? = (blogs[i]?).map (fun blog =>
        { id := blog.id
          domain := blog.domain
          displayName := blog.displayName
          status := BlogStatus.str blog.status
          health := HealthLevel.str (deriveHealth blog).level
          missingCritical := (deriveHealth blog).missing.critical
          missingImportant := (deriveHealth blog).missing.important
          sections :=
            { internal := deriveSectionCompleteness blog.assets AssetCategory.internal
              external := deriveSectionCompleteness blog.assets AssetCategory.external
              distribution :=
                deriveSectionCompleteness blog.assets AssetCategory.distribution } }) := by
  constructor
  · simp [buildSnapshot]
  · simp [buildSnapshot]

-- ============================================================================
-- Filter/sort pipeline: membership (C5)
-- ============================================================================

theorem statusPass_iff (sf : StatusFilter) (st : BlogStatus) :
    statusPass sf st = true ↔ (sf = StatusFilter.all ∨ sf = StatusFilter.only st) := by
  cases sf with
  | all => simp [statusPass]
  | only s =>
    simp only [statusPass, decide_eq_true_eq]
    constructor
    · intro h
      exact Or.inr (by rw [h])
    · rintro (h | h)
      · exact StatusFilter.noConfusion h
      · cases h
        rfl

theorem healthPass_iff (hf : HealthFilter) (lv : HealthLevel) :
    healthPass hf lv = true ↔ (hf = HealthFilter.all ∨ hf = HealthFilter.only lv) := by
  cases hf with
  | all => simp [healthPass]
  | only l =>
    simp only [healthPass, decide_eq_true_eq]
    constructor
    · intro h
      exact Or.inr (by rw [h])
    · rintro (h | h)
      · exact HealthFilter.noConfusion h
      · cases h
        rfl

theorem domainPass_iff (q dom : String) :
    ((decide (q = "") || strIncludes dom.toLower q.toLower) = true)
      ↔ (q = "" ∨ strIncludes dom.toLower q.toLower = true) := by
  rw [Bool.or_eq_true, decide_eq_true_eq]

/-- Claim C5: a blog of the collection appears in the pipeline output exactly
when the status filter is all or matches its lifecycle status, the health
filter is all or matches its derived health level, and the domain query is
empty or a case-insensitive substring of its domain. -/
theorem blogListView_mem (blogs : List Blog) (sf : StatusFilter) (hf : HealthFilter)
    (q : String) (b : Blog) (hb : b ∈ blogs) :
    ((b, deriveHealth b) ∈ blogListView blogs sf hf q) ↔
      ((sf = StatusFilter.all ∨ sf = StatusFilter.only b.status)
       ∧ (hf = HealthFilter.all ∨ hf = HealthFilter.only (deriveHealth b).level)
       ∧ (q = "" ∨ strIncludes b.domain.toLower q.toLower = true)) := by
  have hmm : (b, deriveHealth b) ∈ blogs.map (fun blog => (blog, deriveHealth blog)) :=
    List.mem_map.mpr ⟨b, hb, rfl⟩
  unfold blogListView
  rw [List.mem_mergeSort, List.mem_filter]
  simp only [hmm, true_and]
  unfold blogFilterPred
  rw [Bool.and_eq_true, Bool.and_eq_true]
  exact Iff.trans
    (and_congr (and_congr (statusPass_iff sf b.status)
      (healthPass_iff hf (deriveHealth b).level)) (domainPass_iff q b.domain))
    (and_assoc)

theorem blogListView_mem_witness :
    blogW ∈ [blogW]
    ∧ (blogW, deriveHealth blogW)
        ∈ blogListView [blogW] StatusFilter.all HealthFilter.all "" :=
  ⟨List.mem_singleton.mpr rfl,
   (blogListView_mem [blogW] StatusFilter.all HealthFilter.all "" blogW
      (List.mem_singleton.mpr rfl)).mpr ⟨Or.inl rfl, Or.inl rfl, Or.inl rfl⟩⟩

-- ============================================================================
-- Filter/sort pipeline: ordering (C6)
-- ============================================================================

theorem blogCmpLE_trans (a b c : Blog × BlogHealth)
    (h1 : blogCmpLE a b = true) (h2 : blogCmpLE b c = true) :
    blogCmpLE a c = true := by
  unfold blogCmpLE at h1 h2 ⊢
  by_cases e1 : healthRank a.2.level = healthRank b.2.level <;>
    by_cases e2 : healthRank b.2.level = healthRank c.2.level
  · rw [if_pos e1, decide_eq_true_eq] at h1
    rw [if_pos e2, decide_eq_true_eq] at h2
    rw [if_pos (e1.trans e2), decide_eq_true_eq]
    exact le_trans h1 h2
  · rw [if_pos e1, decide_eq_true_eq] at h1
    rw [if_neg e2, decide_eq_true_eq] at h2
    have hne : healthRank a.2.level ≠ healthRank c.2.level := by omega
    rw [if_neg hne, decide_eq_true_eq]
    omega
  · rw [if_neg e1, decide_eq_true_eq] at h1
    rw [if_pos e2, decide_eq_true_eq] at h2
    have hne : healthRank a.2.level ≠ healthRank c.2.level := by omega
    rw [if_neg hne, decide_eq_true_eq]
    omega
  · rw [if_neg e1, decide_eq_true_eq] at h1
    rw [if_neg e2, decide_eq_true_eq] at h2
    have hne : healthRank a.2.level ≠ healthRank c.2.level := by omega
    rw [if_neg hne, decide_eq_true_eq]
    omega

theorem blogCmpLE_total (a b : Blog × BlogHealth) :
    (blogCmpLE a b || blogCmpLE b a) = true := by
  unfold blogCmpLE
  by_cases e : healthRank a.2.level = healthRank b.2.level
  · rw [if_pos e, if_pos e.symm]
    rcases le_total a.1.displayName b.1.displayName with h | h <;> simp [h]
  · rw [if_neg e, if_neg (Ne.symm e)]
    have := Nat.lt_or_ge (healthRank a.2.level) (healthRank b.2.level)
    rcases this with h | h <;> simp <;> omega

/-- Claim C6: the pipeline output is ordered by severity rank ascending with
display-name comparison as tie-break; for equal health levels the relative
order respects the display-name comparison; risk ranks before incomplete,
which ranks before healthy; re-invocation with identical inputs yields the
identical sequence. -/
theorem blogListView_sorted (blogs : List Blog) (sf : StatusFilter)
    (hf : HealthFilter) (q : String) :
    (blogListView blogs sf hf q).Pairwise (fun x y =>
        healthRank x.2.level < healthRank y.2.level
        ∨ (healthRank x.2.level = healthRank y.2.level
            ∧ x.1.displayName ≤ y.1.displayName))
    ∧ (blogListView blogs sf hf q).Pairwise (fun x y =>
        x.2.level = y.2.level → x.1.displayName ≤ y.1.displayName)
    ∧ healthRank HealthLevel.risk < healthRank HealthLevel.incomplete
    ∧ healthRank HealthLevel.incomplete < healthRank HealthLevel.healthy
    ∧ blogListView blogs sf hf q = blogListView blogs sf hf q := by
  have hp : (blogListView blogs sf hf q).Pairwise (fun x y => blogCmpLE x y = true) := by
    unfold blogListView
    exact List.sorted_mergeSort blogCmpLE_trans blogCmpLE_total _
  have himp : ∀ x y : Blog × BlogHealth, blogCmpLE x y = true →
      (healthRank x.2.level < healthRank y.2.level
        ∨ (healthRank x.2.level = healthRank y.2.level
            ∧ x.1.displayName ≤ y.1.displayName)) := by
    intro x y hxy
    unfold blogCmpLE at hxy
    by_cases e : healthRank x.2.level = healthRank y.2.level
    · rw [if_pos e, decide_eq_true_eq] at hxy
      exact Or.inr ⟨e, hxy⟩
    · rw [if_neg e, decide_eq_true_eq] at hxy
      exact Or.inl hxy
  refine ⟨hp.imp (fun hxy => himp _ _ hxy), ?_, by decide, by decide, rfl⟩
  refine hp.imp ?_
  intro x y hxy hlev
  rcases himp x y hxy with h | h
  · rw [hlev] at h
    omega
  · exact h.2

-- ============================================================================
-- Snapshot serializer: string infrastructure
-- ============================================================================

theorem stringMk_data (s : String) : String.mk s.data = s := by
  cases s
  rfl

theorem digitToChar_ne_nl (d : Nat) : digitToChar d ≠ '\n' := by
  rcases d with _|_|_|_|_|_|_|_|_|_|d <;>
    first
      | decide
      | (show ('*' : Char) ≠ '\n'
         decide)

theorem natToStrAux_mem (fuel : Nat) : ∀ (n : Nat) (acc : List Char),
    ∀ c ∈ natToStrAux fuel n acc, c ∈ acc ∨ ∃ d, c = digitToChar d := by
  induction fuel with
  | zero =>
    intro n acc c hc
    exact Or.inl hc
  | succ fuel ih =>
    intro n acc c hc
    simp only [natToStrAux] at hc
    by_cases h : n / 10 = 0
    · rw [if_pos h] at hc
      rcases List.mem_cons.mp hc with h1 | h1
      · exact Or.inr ⟨n % 10, h1⟩
      · exact Or.inl h1
    · rw [if_neg h] at hc
      rcases ih (n / 10) (digitToChar (n % 10) :: acc) c hc with h1 | h1
      · rcases List.mem_cons.mp h1 with h2 | h2
        · exact Or.inr ⟨n % 10, h2⟩
        · exact Or.inl h2
      · exact Or.inr h1

theorem countNL_natToStr (n : Nat) : countNL (natToStr n) = 0 := by
  show (natToStrAux (n + 1) n []).count '\n' = 0
  rw [List.count_eq_zero]
  intro hmem
  rcases natToStrAux_mem (n + 1) n [] '\n' hmem with h | ⟨d, h⟩
  · simp at h
  · exact digitToChar_ne_nl d h.symm

theorem countNL_append (s t : String) : countNL (s ++ t) = countNL s + countNL t := by
  simp [countNL, String.data_append, List.count_append]

theorem joinSep_cons_cons (sep x y : String) (r : List String) :
    joinSep sep (x :: y :: r) = x ++ sep ++ joinSep sep (y :: r) := rfl

theorem countNL_joinSep_rows : ∀ (rows : List String) (hd : String),
    (∀ r ∈ rows, countNL r = 0) →
    countNL (joinSep "\n" (hd :: rows)) = countNL hd + rows.length := by
  intro rows
  induction rows with
  | nil =>
    intro hd _
    simp [joinSep]
  | cons r rows ih =>
    intro hd h
    rw [joinSep_cons_cons, countNL_append, countNL_append]
    have h1 : countNL r = 0 := h r (List.mem_cons_self r rows)
    have h2 := ih r (fun x hx => h x (List.mem_cons_of_mem r hx))
    have h3 : countNL "\n" = 1 := rfl
    rw [h2, h1, h3]
    simp only [List.length_cons]
    omega

theorem countNL_csvLine (s : BlogSnapshot)
    (h1 : countNL s.domain = 0) (h2 : countNL s.displayName = 0)
    (h3 : countNL s.status = 0) (h4 : countNL s.health = 0) :
    countNL (csvLine s) = 0 := by
  have hc : countNL "," = 0 := rfl
  have hsl : countNL "/" = 0 := rfl
  unfold csvLine
  simp only [countNL_append, h1, h2, h3, h4, countNL_natToStr, hc, hsl]

theorem joinSep_csvRow (s : BlogSnapshot) : joinSep "," (csvRow s) = csvLine s := by
  simp [joinSep, csvRow, csvLine, String.append_assoc]

theorem takeWhile_all_of_no_nl : ∀ (l : List Char), l.count '\n' = 0 →
    l.takeWhile (fun c => c != '\n') = l := by
  intro l
  induction l with
  | nil =>
    intro _
    rfl
  | cons c l ih =>
    intro h
    by_cases hc : c = '\n'
    · subst hc
      simp [List.count_cons] at h
    · have h' : l.count '\n' = 0 := by
        simp [List.count_cons, hc] at h
        exact h
      rw [List.takeWhile_cons]
      have hct : (c != '\n') = true := by simp [hc]
      rw [if_pos hct, ih h']

theorem takeWhile_append_nl (r : List Char) : ∀ (l : List Char), l.count '\n' = 0 →
    (l ++ '\n' :: r).takeWhile (fun c => c != '\n') = l := by
  intro l
  induction l with
  | nil =>
    intro _
    simp [List.takeWhile_cons]
  | cons c l ih =>
    intro h
    by_cases hc : c = '\n'
    · subst hc
      simp [List.count_cons] at h
    · have h' : l.count '\n' = 0 := by
        simp [List.count_cons, hc] at h
        exact h
      rw [List.cons_append, List.takeWhile_cons]
      have hct : (c != '\n') = true := by simp [hc]
      rw [if_pos hct, ih h']

theorem firstLine_joinSep (hd : String) (rows : List String) (hhd : countNL hd = 0) :
    firstLine (joinSep "\n" (hd :: rows)) = hd := by
  cases rows with
  | nil =>
    show firstLine hd = hd
    unfold firstLine
    rw [takeWhile_all_of_no_nl hd.data hhd, stringMk_data]
  | cons r rows =>
    rw [joinSep_cons_cons]
    unfold firstLine
    have hdata : (hd ++ "\n" ++ joinSep "\n" (r :: rows)).data
        = hd.data ++ '\n' :: (joinSep "\n" (r :: rows)).data := by
      rw [String.data_append, String.data_append]
      simp
    rw [hdata, takeWhile_append_nl _ hd.data hhd, stringMk_data]

-- ============================================================================
-- Snapshot serializer (C8, C9)
-- ============================================================================

/-- Claim C8: the CSV export is the header line of the eight fixed column
names joined by commas, followed by one line per record whose fields appear
in the same column order, the completeness cells rendered verified slash
total; under the assumption that no string field holds a newline, the export
holds exactly one newline per record and its first line is the header. -/
theorem snapshotToCSV_format (snaps : List BlogSnapshot)
    (h : ∀ s ∈ snaps, countNL s.domain = 0 ∧ countNL s.displayName = 0
        ∧ countNL s.status = 0 ∧ countNL s.health = 0) :
    snapshotToCSV snaps
        = joinSep "\n"
            ("Domain,Name,Status,Health,Critical Missing,Important Missing,Internal Verified,External Verified"
              :: snaps.map csvLine)
    ∧ countNL (snapshotToCSV snaps) = snaps.length
    ∧ firstLine (snapshotToCSV snaps)
        = "Domain,Name,Status,Health,Critical Missing,Important Missing,Internal Verified,External Verified" := by
  have hhdr : joinSep "," csvHeaders
      = "Domain,Name,Status,Health,Critical Missing,Important Missing,Internal Verified,External Verified" := rfl
  have hfun : (fun s => joinSep "," (csvRow s)) = csvLine := funext joinSep_csvRow
  have heq : snapshotToCSV snaps
      = joinSep "\n"
          ("Domain,Name,Status,Health,Critical Missing,Important Missing,Internal Verified,External Verified"
            :: snaps.map csvLine) := by
    unfold snapshotToCSV
    rw [hhdr, hfun]
  have hrows : ∀ r ∈ snaps.map csvLine, countNL r = 0 := by
    intro r hr
    rcases List.mem_map.mp hr with ⟨s, hs, rfl⟩
    obtain ⟨h1, h2, h3, h4⟩ := h s hs
    exact countNL_csvLine s h1 h2 h3 h4
  have hhdr0 : countNL "Domain,Name,Status,Health,Critical Missing,Important Missing,Internal Verified,External Verified" = 0 := rfl
  refine ⟨heq, ?_, ?_⟩
  · rw [heq, countNL_joinSep_rows _ _ hrows, hhdr0, List.length_map]
    omega
  · rw [heq]
    exact firstLine_joinSep _ _ hhdr0

/-- Sample snapshot record used by the concrete witness. -/
def snapW : BlogSnapshot :=
  { id := "b1", domain := "alpha.com", displayName := "Alpha", status := "active",
    health := "risk", missingCritical := 1, missingImportant := 0,
    sections :=
      { internal := { total := 3, verified := 1 }
        external := { total := 2, verified := 0 }
        distribution := { total := 1, verified := 0 } } }

theorem snapshotToCSV_format_witness :
    (countNL snapW.domain = 0 ∧ countNL snapW.displayName = 0
      ∧ countNL snapW.status = 0 ∧ countNL snapW.health = 0)
    ∧ countNL (snapshotToCSV [snapW]) = 1 := by
  have hh : ∀ s ∈ [snapW], countNL s.domain = 0 ∧ countNL s.displayName = 0
      ∧ countNL s.status = 0 ∧ countNL s.health = 0 := by
    intro s hs
    rw [List.mem_singleton] at hs
    subst hs
    exact ⟨rfl, rfl, rfl, rfl⟩
  exact ⟨⟨rfl, rfl, rfl, rfl⟩, (snapshotToCSV_format [snapW] hh).2.1⟩

/-- Sample snapshot record whose domain holds the comma delimiter. -/
def snapBadW : BlogSnapshot :=
  { id := "b2", domain := "bad,domain.com", displayName := "Bad", status := "active",
    health := "risk", missingCritical := 1, missingImportant := 0,
    sections :=
      { internal := { total := 3, verified := 1 }
        external := { total := 2, verified := 0 }
        distribution := { total := 1, verified := 0 } } }

/-- Claim C9: the serializer performs no escaping: a record whose domain holds
a comma yields a body line with eight cells whose split on the delimiter has
nine fields, more than the eight columns of the header. -/
theorem snapshotToCSV_no_escaping :
    (csvRow snapBadW).length = 8
    ∧ snapshotToCSV [snapBadW]
        = "Domain,Name,Status,Health,Critical Missing,Important Missing,Internal Verified,External Verified"
          ++ "\n" ++ "bad,domain.com,Bad,active,risk,1,0,1/3,0/2"
    ∧ (splitFields ',' "bad,domain.com,Bad,active,risk,1,0,1/3,0/2").length = 9
    ∧ 8 < (splitFields ',' "bad,domain.com,Bad,active,risk,1,0,1/3,0/2").length := by
  refine ⟨rfl, ?_, rfl, by decide⟩
  rfl
